import Mathlib

/-!
Shallow embedding of the Fin-Pulse credit-analysis core
(`src/fin_pulse_engine.py`): the scoring function
`calculate_credit_score`, the rating classifier `get_rating_category`,
and the narrative generator `generate_plain_language_summary`.
Numbers are modelled as rationals (Python floats idealized as exact
arithmetic), Python dicts as fixed-shape records with optional fields,
and Python strings as Lean strings.
-/

namespace FinPulse

/-- Decimal round-half-to-even of a rational to an integer, modelling the
tie-breaking behaviour of Python's built-in `round`. -/
def roundHalfEven (x : ℚ) : ℤ :=
  let f := ⌊x⌋
  let r := x - f
  if r < 1/2 then f
  else if 1/2 < r then f + 1
  else if f % 2 = 0 then f
  else f + 1

/-- `pyRound nd x` models Python's `round(x, nd)` on exact decimal values:
round to `nd` decimal digits with ties going to even. -/
def pyRound (nd : ℕ) (x : ℚ) : ℚ :=
  (roundHalfEven (x * (10 : ℚ) ^ nd) : ℚ) / (10 : ℚ) ^ nd

/-- `listStartsWith needle hay` is true when `needle` is a prefix of `hay`. -/
def listStartsWith : List Char → List Char → Bool
  | [], _ => true
  | _ :: _, [] => false
  | a :: as, b :: bs => a == b && listStartsWith as bs

/-- `containsSub needle hay` is true when `needle` occurs as a contiguous
substring of `hay`, modelling Python's `needle in hay` on strings. -/
def containsSub (needle : List Char) : List Char → Bool
  | [] => listStartsWith needle []
  | c :: rest => listStartsWith needle (c :: rest) || containsSub needle rest

/-- Python's `sub in text` membership test on strings. -/
def strContains (text sub : String) : Bool :=
  containsSub sub.data text.data

/-- `strStartsWith s p` is true when the string `p` is a leading
substring of `s`; used to talk about the lead-in phrase of generated
sentences. -/
def strStartsWith (s p : String) : Bool :=
  listStartsWith p.data s.data

/-- Python's `str.lower`, idealized as per-character lowercasing. -/
def lowerStr (s : String) : String :=
  ⟨s.data.map Char.toLower⟩

/-- The fixed positive sentiment vocabulary (source lines 240-244). -/
def positive_keywords : List String :=
  ["profit", "growth", "deal", "upgrade", "surge", "gain", "rise",
   "expansion", "acquisition", "partnership", "success", "record",
   "strong", "robust", "positive", "bullish", "optimistic"]

/-- The fixed negative sentiment vocabulary (source lines 246-250). -/
def negative_keywords : List String :=
  ["loss", "fraud", "scam", "downgrade", "slump", "decline", "fall",
   "crash", "lawsuit", "investigation", "layoffs", "crisis", "warning",
   "deficit", "trouble", "concern", "risk", "scandal"]

/-- A news headline as consumed by the scoring core; only `title` and
`description` influence the score. -/
structure Headline where
  title : String
  description : String
  url : String := ""
  published_at : String := ""
  source : String := ""
deriving DecidableEq

/-- The financial snapshot record produced by the normalizer. -/
structure FinancialData where
  ticker : String := ""
  company_name : String := ""
  total_revenue : ℚ
  total_debt : ℚ
  market_cap : ℚ
  currency : String := "INR"
  sector : String := "Unknown"
  industry : String := "Unknown"
deriving DecidableEq

/-- The value reported for the debt ratio in the explanation dict:
either a number, the string sentinel for unavailable data, or the
string sentinel of the (dead) ZeroDivisionError handler. -/
inductive DebtRatioRep where
  | value (q : ℚ)
  | unavailable
  | revenueZero
deriving DecidableEq

/-- The value reported for market cap billions: a number or the
unavailable-data string sentinel. -/
inductive MarketCapRep where
  | value (q : ℚ)
  | unavailable
deriving DecidableEq

/-- The debt-ratio banding if-chain (source lines 180-191), factored
out of the evaluator: impact as a function of the computed ratio. -/
def debtBand (ratioVal : ℚ) : ℤ :=
  if ratioVal ≤ 0.2 then 25
  else if ratioVal ≤ 0.4 then 15
  else if ratioVal ≤ 0.6 then 5
  else if ratioVal ≤ 0.8 then -5
  else if ratioVal ≤ 1.0 then -15
  else -25

/-- Body of the `try` block of the debt-ratio analysis (source lines
175-197), with the division site made explicit: in Python, evaluating
`total_debt / total_revenue` raises `ZeroDivisionError` exactly when
`total_revenue` is zero, modelled here as `Except.error ()`. -/
def debtEvalBody (total_revenue total_debt : ℚ) : Except Unit (ℤ × DebtRatioRep) :=
  if total_revenue > 0 ∧ total_debt ≥ 0 then
    if total_revenue = 0 then Except.error ()
    else
      let ratioVal := total_debt / total_revenue
      Except.ok (debtBand ratioVal, DebtRatioRep.value (pyRound 3 ratioVal))
  else
    Except.ok (-10, DebtRatioRep.unavailable)

/-- The debt-ratio analysis (source lines 174-203): the `try` body with
its `except ZeroDivisionError` handler mapping the raised error to
impact -20 and the "Revenue is zero" report. -/
def debtEval (total_revenue total_debt : ℚ) : ℤ × DebtRatioRep :=
  match debtEvalBody total_revenue total_debt with
  | Except.ok v => v
  | Except.error _ => (-20, DebtRatioRep.revenueZero)

/-- The market-cap banding if-chain (source lines 221-230), factored
out of the evaluator: impact as a function of billions of INR. -/
def marketCapBand (market_cap_billions : ℚ) : ℤ :=
  if market_cap_billions ≥ 500 then 20
  else if market_cap_billions ≥ 100 then 15
  else if market_cap_billions ≥ 50 then 10
  else if market_cap_billions ≥ 10 then 5
  else 0

/-- The market-cap analysis (source lines 207-236), continued: guard on
positive market cap, currency conversion, banding and reporting. -/
def marketCapEval (market_cap : ℚ) (currency : String) : ℤ × MarketCapRep :=
  if market_cap > 0 then
    let market_cap_inr := if currency = "USD" then market_cap * 83 else market_cap
    let market_cap_billions := market_cap_inr / 1000000000
    (marketCapBand market_cap_billions, MarketCapRep.value (pyRound 2 market_cap_billions))
  else
    (0, MarketCapRep.unavailable)

/-- Per-headline sentiment classification outcome. -/
inductive Sentiment where
  | negative
  | positive
  | neutral
deriving DecidableEq

/-- The lowercased concatenated text scanned for keywords
(source lines 258-260). -/
def fullTextOf (h : Headline) : String :=
  lowerStr h.title ++ " " ++ lowerStr h.description

/-- Python's `any(keyword in text for keyword in kws)`. -/
def hasAnyKeyword (kws : List String) (text : String) : Bool :=
  kws.any (fun k => strContains text k)

/-- Classification of one headline (source lines 262-272): negative
keywords take precedence over positive ones. -/
def classifyHeadline (h : Headline) : Sentiment :=
  let full_text := fullTextOf h
  let has_positive := hasAnyKeyword positive_keywords full_text
  let has_negative := hasAnyKeyword negative_keywords full_text
  if has_negative then Sentiment.negative
  else if has_positive then Sentiment.positive
  else Sentiment.neutral

/-- One iteration of the sentiment loop: the accumulator is
(impact, positive_count, negative_count). -/
def sentimentStep (acc : ℤ × ℕ × ℕ) (h : Headline) : ℤ × ℕ × ℕ :=
  match classifyHeadline h with
  | Sentiment.negative => (acc.1 - 5, acc.2.1, acc.2.2 + 1)
  | Sentiment.positive => (acc.1 + 5, acc.2.1 + 1, acc.2.2)
  | Sentiment.neutral => acc

/-- The news sentiment loop (source lines 252-272), returning
(news_sentiment_impact, positive_count, negative_count). -/
def sentimentLoop (news_headlines : List Headline) : ℤ × ℕ × ℕ :=
  news_headlines.foldl sentimentStep (0, 0, 0)

/-- The explanation dict assembled by `calculate_credit_score`, as a
fixed-shape record; fields that are only present on some paths of the
Python code are `Option`-valued, `none` meaning the key is absent. -/
structure Explanation where
  base_score : ℤ
  debt_ratio_impact : ℤ
  market_cap_impact : ℤ
  news_sentiment_impact : ℤ
  debt_ratio_rep : Option DebtRatioRep := none
  market_cap_billions : Option MarketCapRep := none
  positive_news_count : Option ℕ := none
  negative_news_count : Option ℕ := none
  final_score : Option ℤ := none
  error : Option String := none
deriving DecidableEq

/-- The scoring engine `calculate_credit_score` (source lines 138-283):
absent snapshot short-circuits to score 0 with an error marker;
otherwise base 50 plus the three evaluator impacts, clamped to [0,100]. -/
def calculate_credit_score (financial_data : Option FinancialData)
    (news_headlines : List Headline) : ℤ × Explanation :=
  match financial_data with
  | none =>
    (0, { base_score := 0, debt_ratio_impact := 0, market_cap_impact := 0,
          news_sentiment_impact := 0,
          error := some "Invalid ticker or data unavailable" })
  | some d =>
    let dres := debtEval d.total_revenue d.total_debt
    let mres := marketCapEval d.market_cap d.currency
    let sres := sentimentLoop news_headlines
    let current_score := 50 + dres.1 + mres.1 + sres.1
    let fs := max 0 (min 100 current_score)
    (fs,
     { base_score := 50,
       debt_ratio_impact := dres.1,
       market_cap_impact := mres.1,
       news_sentiment_impact := sres.1,
       debt_ratio_rep := some dres.2,
       market_cap_billions := some mres.2,
       positive_news_count := some sres.2.1,
       negative_news_count := some sres.2.2,
       final_score := some fs,
       error := none })

/-- The rating classifier `get_rating_category` (source lines 383-398). -/
def get_rating_category (score : ℤ) : String :=
  if score ≥ 85 then "AAA (Excellent)"
  else if score ≥ 75 then "AA (Very Good)"
  else if score ≥ 65 then "A (Good)"
  else if score ≥ 55 then "BBB (Fair)"
  else if score ≥ 45 then "BB (Below Average)"
  else if score ≥ 35 then "B (Poor)"
  else "C (High Risk)"

/-- Overall-assessment clause of the narrative (source lines 303-312). -/
def overallClause (score : ℤ) : String :=
  if score ≥ 80 then "shows excellent creditworthiness"
  else if score ≥ 65 then "demonstrates strong financial health"
  else if score ≥ 50 then "presents a moderate credit profile"
  else if score ≥ 35 then "shows concerning credit indicators"
  else "exhibits high credit risk"

/-- Debt branch of the strengths list (source lines 319-322, the two
strength arms of the elif chain). -/
def debtStrength (debt_impact : ℤ) : Option String :=
  if debt_impact ≥ 15 then some "excellent debt management"
  else if debt_impact ≥ 5 then some "healthy debt levels"
  else none

/-- Debt branch of the concerns list (source lines 319-324, the concern
arm of the same elif chain). -/
def debtConcern (debt_impact : ℤ) : Option String :=
  if debt_impact ≥ 15 then none
  else if debt_impact ≥ 5 then none
  else if debt_impact ≤ -10 then some "high debt burden"
  else none

/-- Market-cap branch of the strengths list (source lines 327-330). -/
def marketStrength (market_cap_impact : ℤ) : Option String :=
  if market_cap_impact ≥ 15 then some "strong market position"
  else if market_cap_impact ≥ 10 then some "solid market presence"
  else none

/-- Market-cap branch of the concerns list (source lines 327-332). -/
def marketConcern (market_cap_impact : ℤ) : Option String :=
  if market_cap_impact ≥ 15 then none
  else if market_cap_impact ≥ 10 then none
  else if market_cap_impact ≤ 5 then some "limited market size"
  else none

/-- News branch of the strengths list (source lines 335-338). -/
def newsStrength (news_impact : ℤ) : Option String :=
  if news_impact ≥ 10 then some "positive market sentiment"
  else if news_impact ≥ 5 then some "favorable news coverage"
  else none

/-- News branch of the concerns list (source lines 335-342). -/
def newsConcern (news_impact : ℤ) : Option String :=
  if news_impact ≥ 10 then none
  else if news_impact ≥ 5 then none
  else if news_impact ≤ -10 then some "negative market sentiment"
  else if news_impact ≤ -5 then some "mixed news sentiment"
  else none

/-- The strengths list in the order the Python code appends to it:
debt, then market cap, then news (source lines 315-338). -/
def strengthsOf (debt_impact market_cap_impact news_impact : ℤ) : List String :=
  (debtStrength debt_impact).toList ++ (marketStrength market_cap_impact).toList
    ++ (newsStrength news_impact).toList

/-- The concerns list in the order the Python code appends to it:
debt, then market cap, then news (source lines 315-342). -/
def concernsOf (debt_impact market_cap_impact news_impact : ℤ) : List String :=
  (debtConcern debt_impact).toList ++ (marketConcern market_cap_impact).toList
    ++ (newsConcern news_impact).toList

/-- The strengths sentence appended to the summary, when the strengths
list is non-empty (source lines 347-351). -/
def strengthClause (strengths : List String) : Option String :=
  match strengths with
  | [] => none
  | [s] => some ("The company benefits from " ++ s ++ ".")
  | s1 :: s2 :: rest =>
    some ("Key strengths include "
      ++ String.intercalate ", " ((s1 :: s2 :: rest).dropLast)
      ++ ", and " ++ (s1 :: s2 :: rest).getLast (by simp) ++ ".")

/-- The concerns sentence appended to the summary, when the concerns
list is non-empty (source lines 353-360): with a single concern the
lead-in depends on whether any strengths were stated, with two or more
concerns the "Areas of concern" lead-in is used unconditionally. -/
def concernClause (strengths concerns : List String) : Option String :=
  match concerns with
  | [] => none
  | [c] =>
    if strengths ≠ [] then some ("However, attention should be paid to " ++ c ++ ".")
    else some ("Primary concerns include " ++ c ++ ".")
  | c1 :: c2 :: rest =>
    some ("Areas of concern include "
      ++ String.intercalate ", " ((c1 :: c2 :: rest).dropLast)
      ++ ", and " ++ (c1 :: c2 :: rest).getLast (by simp) ++ ".")

/-- The recommendation sentence (source lines 363-370). -/
def recommendationClause (score : ℤ) : String :=
  if score ≥ 75 then "This represents a solid investment-grade credit profile."
  else if score ≥ 60 then "Overall, this indicates an acceptable credit risk for most investors."
  else if score ≥ 40 then "Investors should carefully evaluate the risk-reward profile."
  else "This credit profile suggests significant risk that requires careful consideration."

/-- The narrative generator `generate_plain_language_summary`
(source lines 285-372). -/
def generate_plain_language_summary (score : ℤ) (e : Explanation)
    (company_name : String) : String :=
  let debt_impact := e.debt_ratio_impact
  let market_cap_impact := e.market_cap_impact
  let news_impact := e.news_sentiment_impact
  let strengths := strengthsOf debt_impact market_cap_impact news_impact
  let concerns := concernsOf debt_impact market_cap_impact news_impact
  let summary_parts :=
    ["Based on our comprehensive analysis, " ++ company_name ++ " "
       ++ overallClause score ++ "."]
    ++ (strengthClause strengths).toList
    ++ (concernClause strengths concerns).toList
    ++ [recommendationClause score]
  String.intercalate " " summary_parts

/-! ### Helper lemmas -/

lemma listStartsWith_self_append (p rest : List Char) :
    listStartsWith p (p ++ rest) = true := by
  induction p with
  | nil => rfl
  | cons a as ih => simp [listStartsWith, ih]

lemma strStartsWith_of_data (s p : String) (rest : List Char)
    (h : s.data = p.data ++ rest) : strStartsWith s p = true := by
  unfold strStartsWith
  rw [h]
  exact listStartsWith_self_append _ _

lemma debtEval_of_guard_false (total_revenue total_debt : ℚ)
    (h : ¬ (total_revenue > 0 ∧ total_debt ≥ 0)) :
    debtEval total_revenue total_debt = (-10, DebtRatioRep.unavailable) := by
  unfold debtEval debtEvalBody
  rw [if_neg h]

lemma debtEval_of_pos (total_revenue total_debt : ℚ) (hr : 0 < total_revenue)
    (hd : 0 ≤ total_debt) :
    debtEval total_revenue total_debt =
      (debtBand (total_debt / total_revenue),
       DebtRatioRep.value (pyRound 3 (total_debt / total_revenue))) := by
  unfold debtEval debtEvalBody
  rw [if_pos ⟨hr, hd⟩, if_neg (ne_of_gt hr)]

lemma marketCapEval_of_nonpos (market_cap : ℚ) (currency : String)
    (h : ¬ market_cap > 0) :
    marketCapEval market_cap currency = (0, MarketCapRep.unavailable) := by
  unfold marketCapEval
  rw [if_neg h]

lemma marketCapEval_of_pos (market_cap : ℚ) (currency : String)
    (h : market_cap > 0) :
    marketCapEval market_cap currency =
      (marketCapBand ((if currency = "USD" then market_cap * 83 else market_cap) / 1000000000),
       MarketCapRep.value
         (pyRound 2 ((if currency = "USD" then market_cap * 83 else market_cap) / 1000000000))) := by
  unfold marketCapEval
  rw [if_pos h]

lemma market_concern_mem (debt_impact market_cap_impact news_impact : ℤ) (c : String)
    (hc : marketConcern market_cap_impact = some c) :
    c ∈ concernsOf debt_impact market_cap_impact news_impact := by
  simp [concernsOf, hc]

/-! ### Claim theorems -/

/-- C1: for every present snapshot and every headline list, the final
score returned by `calculate_credit_score` lies in [0,100] inclusive,
whatever the three impacts sum to. -/
theorem final_score_in_unit_range (d : FinancialData) (hs : List Headline) :
    0 ≤ (calculate_credit_score (some d) hs).1 ∧
      (calculate_credit_score (some d) hs).1 ≤ 100 :=
  ⟨le_max_left 0 _, max_le (by norm_num) (min_le_left _ _)⟩

/-- C2 counterexample: at the absent snapshot the error marker set by
the code is "Invalid ticker or data unavailable", not the
"invalid instrument or data unavailable" the claim states. -/
theorem absent_snapshot_error_marker_text :
    (calculate_credit_score none []).2.error = some "Invalid ticker or data unavailable" ∧
    ¬ (calculate_credit_score none []).2.error = some "invalid instrument or data unavailable" :=
  ⟨rfl, by decide⟩

/-- C2 (amended): for every headline list, an absent snapshot makes
`calculate_credit_score` short-circuit to score 0 with an explanation
holding only base 0, the three impacts 0 and the error marker
"Invalid ticker or data unavailable"; no evaluator output appears. -/
theorem absent_snapshot_short_circuit (hs : List Headline) :
    calculate_credit_score none hs =
      (0, { base_score := 0, debt_ratio_impact := 0, market_cap_impact := 0,
            news_sentiment_impact := 0, debt_ratio_rep := none,
            market_cap_billions := none, positive_news_count := none,
            negative_news_count := none, final_score := none,
            error := some "Invalid ticker or data unavailable" }) := rfl

/-- C9: the ZeroDivisionError handler of the debt evaluator is dead
code - the try body never raises, so the impact never takes the
handler value -20. -/
theorem zero_division_handler_unreachable (total_revenue total_debt : ℚ) :
    debtEvalBody total_revenue total_debt ≠ Except.error () ∧
    (debtEval total_revenue total_debt).1 ≠ -20 := by
  constructor
  · unfold debtEvalBody
    split_ifs with h1 h2
    · exfalso
      rw [h2] at h1
      exact lt_irrefl 0 h1.1
    · simp
    · simp
  · by_cases hg : total_revenue > 0 ∧ total_debt ≥ 0
    · rw [debtEval_of_pos _ _ hg.1 hg.2]
      dsimp only
      unfold debtBand
      split_ifs <;> decide
    · rw [debtEval_of_guard_false _ _ hg]
      decide

/-- C6: the rating classifier is total and band-exhaustive on the
integers of [0,100]: the result is always one of the seven labels, and
each label is returned exactly on its inclusive-lower-bound band, with
no gap or overlap. -/
theorem rating_bands (s : ℤ) (hmem : s ∈ Finset.Icc (0 : ℤ) 100) :
    get_rating_category s ∈
      ["AAA (Excellent)", "AA (Very Good)", "A (Good)", "BBB (Fair)",
       "BB (Below Average)", "B (Poor)", "C (High Risk)"] ∧
    ((get_rating_category s = "AAA (Excellent)") ↔ 85 ≤ s) ∧
    ((get_rating_category s = "AA (Very Good)") ↔ 75 ≤ s ∧ s < 85) ∧
    ((get_rating_category s = "A (Good)") ↔ 65 ≤ s ∧ s < 75) ∧
    ((get_rating_category s = "BBB (Fair)") ↔ 55 ≤ s ∧ s < 65) ∧
    ((get_rating_category s = "BB (Below Average)") ↔ 45 ≤ s ∧ s < 55) ∧
    ((get_rating_category s = "B (Poor)") ↔ 35 ≤ s ∧ s < 45) ∧
    ((get_rating_category s = "C (High Risk)") ↔ s < 35) := by
  revert hmem
  revert s
  decide

/-- Witness for C6 at score 70: the classifier yields "A (Good)". -/
theorem rating_bands_witness : get_rating_category 70 = "A (Good)" :=
  ((rating_bands 70 (by decide)).2.2.2.1).mpr (by decide)

/-- C10: for the five market-cap impact values the scorer produces, the
market dimension of the narrative always lands in exactly one of the
two lists - a strength for impact ≥ 10, the "limited market size"
concern for impact ≤ 5 (including the unavailable-market-cap impact 0)
- while the debt and news dimensions have unclassified middle values. -/
theorem market_dimension_always_classified
    (market_cap_impact debt_impact news_impact : ℤ)
    (h : market_cap_impact = 0 ∨ market_cap_impact = 5 ∨ market_cap_impact = 10 ∨
      market_cap_impact = 15 ∨ market_cap_impact = 20) :
    (((marketStrength market_cap_impact).isSome = true ∧
        marketConcern market_cap_impact = none) ∨
      (marketStrength market_cap_impact = none ∧
        (marketConcern market_cap_impact).isSome = true)) ∧
    (market_cap_impact ≤ 5 →
      marketConcern market_cap_impact = some "limited market size" ∧
      "limited market size" ∈ concernsOf debt_impact market_cap_impact news_impact) ∧
    (10 ≤ market_cap_impact →
      (marketStrength market_cap_impact).isSome = true ∧
      marketConcern market_cap_impact = none) ∧
    marketConcern 0 = some "limited market size" ∧
    debtStrength (-5) = none ∧ debtConcern (-5) = none ∧
    newsStrength 0 = none ∧ newsConcern 0 = none := by
  rcases h with rfl | rfl | rfl | rfl | rfl
  · exact ⟨by decide, fun _ => ⟨by decide, market_concern_mem _ _ _ _ (by decide)⟩,
      fun hx => absurd hx (by decide), by decide, by decide, by decide, by decide, by decide⟩
  · exact ⟨by decide, fun _ => ⟨by decide, market_concern_mem _ _ _ _ (by decide)⟩,
      fun hx => absurd hx (by decide), by decide, by decide, by decide, by decide, by decide⟩
  · exact ⟨by decide, fun hx => absurd hx (by decide), fun _ => by decide,
      by decide, by decide, by decide, by decide, by decide⟩
  · exact ⟨by decide, fun hx => absurd hx (by decide), fun _ => by decide,
      by decide, by decide, by decide, by decide, by decide⟩
  · exact ⟨by decide, fun hx => absurd hx (by decide), fun _ => by decide,
      by decide, by decide, by decide, by decide, by decide⟩

/-- Witness for C10 at market-cap impact 0: the concern is emitted and
reaches the concerns list. -/
theorem market_dimension_witness :
    marketConcern 0 = some "limited market size" ∧
    "limited market size" ∈ concernsOf 25 0 0 :=
  (market_dimension_always_classified 0 25 0 (Or.inl rfl)).2.1 (by decide)

/-- C3: for non-negative debt, the debt evaluator yields -10 with the
ratio reported unavailable when revenue ≤ 0, without dividing; for
positive revenue it yields exactly the band of debt/revenue with
inclusive upper bounds 0.2, 0.4, 0.6, 0.8, 1.0, reporting the ratio
rounded to 3 decimals. It is a total function: no exception escapes. -/
theorem debt_eval_bands (total_revenue total_debt : ℚ) (hd : 0 ≤ total_debt) :
    (total_revenue ≤ 0 →
      debtEval total_revenue total_debt = (-10, DebtRatioRep.unavailable)) ∧
    (0 < total_revenue →
      (debtEval total_revenue total_debt).2 =
        DebtRatioRep.value (pyRound 3 (total_debt / total_revenue)) ∧
      ((debtEval total_revenue total_debt).1 = 25 ↔
        total_debt / total_revenue ≤ 0.2) ∧
      ((debtEval total_revenue total_debt).1 = 15 ↔
        0.2 < total_debt / total_revenue ∧ total_debt / total_revenue ≤ 0.4) ∧
      ((debtEval total_revenue total_debt).1 = 5 ↔
        0.4 < total_debt / total_revenue ∧ total_debt / total_revenue ≤ 0.6) ∧
      ((debtEval total_revenue total_debt).1 = -5 ↔
        0.6 < total_debt / total_revenue ∧ total_debt / total_revenue ≤ 0.8) ∧
      ((debtEval total_revenue total_debt).1 = -15 ↔
        0.8 < total_debt / total_revenue ∧ total_debt / total_revenue ≤ 1) ∧
      ((debtEval total_revenue total_debt).1 = -25 ↔
        1 < total_debt / total_revenue)) := by
  constructor
  · intro hr
    exact debtEval_of_guard_false _ _ (fun hc => absurd hc.1 (not_lt.mpr hr))
  · intro hr
    rw [debtEval_of_pos _ _ hr hd]
    dsimp only
    unfold debtBand
    refine ⟨rfl, ?_, ?_, ?_, ?_, ?_, ?_⟩ <;>
      split_ifs <;>
      constructor <;>
      intro hx <;>
      first
        | rfl
        | linarith
        | (exact absurd hx (by decide))
        | (obtain ⟨hx1, hx2⟩ := hx
           first
             | rfl
             | linarith)
        | (exact ⟨by linarith, by linarith⟩)

/-- Witness for C3 at revenue 1e9, debt 1.5e8 (ratio 0.15): impact +25
and the rounded ratio reported. -/
theorem debt_eval_bands_witness :
    (debtEval 1000000000 150000000).1 = 25 ∧
    (debtEval 1000000000 150000000).2 =
      DebtRatioRep.value (pyRound 3 (150000000 / 1000000000)) := by
  have h := (debt_eval_bands 1000000000 150000000 (by norm_num)).2 (by norm_num)
  exact ⟨h.2.1.mpr (by norm_num), h.1⟩

/-- C5: the market-cap evaluator yields 0 with an unavailable report
for non-positive market cap; otherwise it bands the converted value
(83-fold for USD, identity for any other currency) in billions with
inclusive lower bounds 500, 100, 50, 10, reporting it rounded to 2
decimals; in particular marketCap 6e9 USD gives 498 billions, +15. -/
theorem market_cap_bands (market_cap : ℚ) (currency : String) :
    (market_cap ≤ 0 →
      marketCapEval market_cap currency = (0, MarketCapRep.unavailable)) ∧
    (0 < market_cap →
      (marketCapEval market_cap currency).2 =
        MarketCapRep.value (pyRound 2
          ((if currency = "USD" then market_cap * 83 else market_cap) / 1000000000)) ∧
      ((marketCapEval market_cap currency).1 = 20 ↔
        500 ≤ (if currency = "USD" then market_cap * 83 else market_cap) / 1000000000) ∧
      ((marketCapEval market_cap currency).1 = 15 ↔
        100 ≤ (if currency = "USD" then market_cap * 83 else market_cap) / 1000000000 ∧
        (if currency = "USD" then market_cap * 83 else market_cap) / 1000000000 < 500) ∧
      ((marketCapEval market_cap currency).1 = 10 ↔
        50 ≤ (if currency = "USD" then market_cap * 83 else market_cap) / 1000000000 ∧
        (if currency = "USD" then market_cap * 83 else market_cap) / 1000000000 < 100) ∧
      ((marketCapEval market_cap currency).1 = 5 ↔
        10 ≤ (if currency = "USD" then market_cap * 83 else market_cap) / 1000000000 ∧
        (if currency = "USD" then market_cap * 83 else market_cap) / 1000000000 < 50) ∧
      ((marketCapEval market_cap currency).1 = 0 ↔
        (if currency = "USD" then market_cap * 83 else market_cap) / 1000000000 < 10)) ∧
    marketCapEval 6000000000 "USD" = (15, MarketCapRep.value 498) := by
  refine ⟨?_, ?_, ?_⟩
  · intro h
    exact marketCapEval_of_nonpos _ _ (not_lt.mpr h)
  · intro h
    rw [marketCapEval_of_pos _ _ h]
    dsimp only
    unfold marketCapBand
    refine ⟨rfl, ?_, ?_, ?_, ?_, ?_⟩ <;>
      split_ifs <;>
      constructor <;>
      intro hx <;>
      first
        | rfl
        | linarith
        | (exact absurd hx (by decide))
        | (obtain ⟨hx1, hx2⟩ := hx
           first
             | rfl
             | linarith)
        | (exact ⟨by linarith, by linarith⟩)
  · norm_num [marketCapEval, marketCapBand, pyRound, roundHalfEven]

/-- Witness for C5: negative market cap yields impact 0 with the
unavailable marker. -/
theorem market_cap_bands_witness :
    marketCapEval (-1) "INR" = (0, MarketCapRep.unavailable) :=
  (market_cap_bands (-1) "INR").1 (by norm_num)

lemma debtBand_antitone {q1 q2 : ℚ} (h : q1 ≤ q2) : debtBand q2 ≤ debtBand q1 := by
  unfold debtBand
  split_ifs <;> first | decide | linarith

/-- C8: for fixed positive revenue, the debt impact is a non-increasing
function of non-negative debt. -/
theorem debt_impact_monotone_in_debt (total_revenue d1 d2 : ℚ)
    (hr : 0 < total_revenue) (h1 : 0 ≤ d1) (h12 : d1 ≤ d2) :
    (debtEval total_revenue d2).1 ≤ (debtEval total_revenue d1).1 := by
  have h2 : 0 ≤ d2 := h1.trans h12
  rw [debtEval_of_pos _ _ hr h1, debtEval_of_pos _ _ hr h2]
  dsimp only
  exact debtBand_antitone (by gcongr)

/-- Witness for C8 at revenue 10, debts 1 ≤ 9. -/
theorem debt_impact_monotone_witness :
    (debtEval 10 9).1 ≤ (debtEval 10 1).1 :=
  debt_impact_monotone_in_debt 10 1 9 (by norm_num) (by norm_num) (by norm_num)

lemma sentimentLoop_foldl_spec (hs : List Headline) :
    ∀ (a : ℤ) (p n : ℕ),
      (hs.foldl sentimentStep (a, p, n)).1 =
        a + 5 * (((hs.foldl sentimentStep (a, p, n)).2.1 : ℤ) - (p : ℤ))
          - 5 * (((hs.foldl sentimentStep (a, p, n)).2.2 : ℤ) - (n : ℤ)) := by
  induction hs with
  | nil =>
    intro a p n
    simp
  | cons h t ih =>
    intro a p n
    rw [List.foldl_cons]
    cases hcl : classifyHeadline h with
    | negative =>
      rw [show sentimentStep (a, p, n) h = (a - 5, p, n + 1) from by
        simp [sentimentStep, hcl]]
      rw [ih (a - 5) p (n + 1)]
      push_cast
      ring
    | positive =>
      rw [show sentimentStep (a, p, n) h = (a + 5, p + 1, n) from by
        simp [sentimentStep, hcl]]
      rw [ih (a + 5) (p + 1) n]
      push_cast
      ring
    | neutral =>
      rw [show sentimentStep (a, p, n) h = (a, p, n) from by
        simp [sentimentStep, hcl]]
      exact ih a p n

/-- C4: a headline whose lowercased title-plus-description text holds a
negative keyword is classified negative only (count and -5 step), even
if a positive keyword is also present; with no negative match a
positive match gives the positive step, and with neither the headline
leaves the accumulator untouched; the loop total always equals
5·positiveCount − 5·negativeCount. -/
theorem sentiment_precedence (hs : List Headline) (h : Headline) :
    (sentimentLoop hs).1 =
      5 * ((sentimentLoop hs).2.1 : ℤ) - 5 * ((sentimentLoop hs).2.2 : ℤ) ∧
    (hasAnyKeyword negative_keywords (fullTextOf h) = true →
      classifyHeadline h = Sentiment.negative ∧
      ∀ acc : ℤ × ℕ × ℕ, sentimentStep acc h = (acc.1 - 5, acc.2.1, acc.2.2 + 1)) ∧
    (hasAnyKeyword negative_keywords (fullTextOf h) = false →
      hasAnyKeyword positive_keywords (fullTextOf h) = true →
      classifyHeadline h = Sentiment.positive ∧
      ∀ acc : ℤ × ℕ × ℕ, sentimentStep acc h = (acc.1 + 5, acc.2.1 + 1, acc.2.2)) ∧
    (hasAnyKeyword negative_keywords (fullTextOf h) = false →
      hasAnyKeyword positive_keywords (fullTextOf h) = false →
      classifyHeadline h = Sentiment.neutral ∧
      ∀ acc : ℤ × ℕ × ℕ, sentimentStep acc h = acc) := by
  refine ⟨?_, ?_, ?_, ?_⟩
  · unfold sentimentLoop
    rw [sentimentLoop_foldl_spec hs 0 0 0]
    push_cast
    ring
  · intro hneg
    have hcl : classifyHeadline h = Sentiment.negative := by
      simp [classifyHeadline, hneg]
    exact ⟨hcl, fun acc => by simp [sentimentStep, hcl]⟩
  · intro hneg hpos
    have hcl : classifyHeadline h = Sentiment.positive := by
      simp [classifyHeadline, hneg, hpos]
    exact ⟨hcl, fun acc => by simp [sentimentStep, hcl]⟩
  · intro hneg hpos
    have hcl : classifyHeadline h = Sentiment.neutral := by
      simp [classifyHeadline, hneg, hpos]
    exact ⟨hcl, fun acc => by simp [sentimentStep, hcl]⟩

/-- Witness for C4: one positive and one negative headline cancel to
impact 0, and a headline holding both "profit" and "fraud" is
classified negative. -/
theorem sentiment_precedence_witness :
    (sentimentLoop [{ title := "Company reports record profit", description := "" },
                    { title := "Fraud investigation launched", description := "" }]).1 =
      5 * (((sentimentLoop [{ title := "Company reports record profit", description := "" },
                            { title := "Fraud investigation launched", description := "" }]).2.1 : ℤ))
        - 5 * (((sentimentLoop [{ title := "Company reports record profit", description := "" },
                                { title := "Fraud investigation launched", description := "" }]).2.2 : ℤ)) ∧
    classifyHeadline { title := "Record profit amid fraud probe", description := "" } =
      Sentiment.negative := by
  have h := sentiment_precedence
    [{ title := "Company reports record profit", description := "" },
     { title := "Fraud investigation launched", description := "" }]
    { title := "Record profit amid fraud probe", description := "" }
  exact ⟨h.1, (h.2.1 (by decide)).1⟩

lemma data_append (s t : String) : (s ++ t).data = s.data ++ t.data := rfl

lemma concernClause_singleton (strengths : List String) (c : String) :
    concernClause strengths [c] =
      if strengths ≠ [] then some ("However, attention should be paid to " ++ c ++ ".")
      else some ("Primary concerns include " ++ c ++ ".") := rfl

lemma concernClause_long (strengths : List String) (c1 c2 : String) (cs : List String) :
    ∃ out, concernClause strengths (c1 :: c2 :: cs) = some out ∧
      strStartsWith out "Areas of concern include " = true := by
  refine ⟨_, rfl, ?_⟩
  apply strStartsWith_of_data _ _
    ((String.intercalate ", " ((c1 :: c2 :: cs).dropLast)).data
      ++ (", and ".data ++ (((c1 :: c2 :: cs).getLast (by simp)).data ++ ".".data)))
  simp [data_append, List.append_assoc]

/-- C7 (amended): the However-versus-Primary-concerns dichotomy on the
concern clause lead-in holds exactly when the concern list has a single
element; with two or more concerns the clause leads with
"Areas of concern include" whether or not strengths were stated. -/
theorem concern_clause_lead_in (e : Explanation) :
    ((concernsOf e.debt_ratio_impact e.market_cap_impact e.news_sentiment_impact).length = 1 →
      ∃ out, concernClause
          (strengthsOf e.debt_ratio_impact e.market_cap_impact e.news_sentiment_impact)
          (concernsOf e.debt_ratio_impact e.market_cap_impact e.news_sentiment_impact) =
            some out ∧
        ((strengthsOf e.debt_ratio_impact e.market_cap_impact e.news_sentiment_impact ≠ [] ∧
          strStartsWith out "However, attention should be paid to " = true) ∨
         (strengthsOf e.debt_ratio_impact e.market_cap_impact e.news_sentiment_impact = [] ∧
          strStartsWith out "Primary concerns include " = true))) ∧
    (2 ≤ (concernsOf e.debt_ratio_impact e.market_cap_impact e.news_sentiment_impact).length →
      ∃ out, concernClause
          (strengthsOf e.debt_ratio_impact e.market_cap_impact e.news_sentiment_impact)
          (concernsOf e.debt_ratio_impact e.market_cap_impact e.news_sentiment_impact) =
            some out ∧
        strStartsWith out "Areas of concern include " = true) := by
  constructor
  · intro hlen
    rcases hcs : concernsOf e.debt_ratio_impact e.market_cap_impact e.news_sentiment_impact
      with _ | ⟨c, _ | ⟨c2, cs⟩⟩
    · rw [hcs] at hlen
      simp at hlen
    · rw [concernClause_singleton]
      by_cases hstr :
        strengthsOf e.debt_ratio_impact e.market_cap_impact e.news_sentiment_impact = []
      · rw [if_neg (fun hne => hne hstr)]
        exact ⟨_, rfl, Or.inr ⟨hstr,
          strStartsWith_of_data _ _ (c.data ++ ".".data)
            (by simp [data_append, List.append_assoc])⟩⟩
      · rw [if_pos hstr]
        exact ⟨_, rfl, Or.inl ⟨hstr,
          strStartsWith_of_data _ _ (c.data ++ ".".data)
            (by simp [data_append, List.append_assoc])⟩⟩
    · rw [hcs] at hlen
      simp at hlen
  · intro hlen
    rcases hcs : concernsOf e.debt_ratio_impact e.market_cap_impact e.news_sentiment_impact
      with _ | ⟨c, _ | ⟨c2, cs⟩⟩
    · rw [hcs] at hlen
      simp at hlen
    · rw [hcs] at hlen
      simp at hlen
    · exact concernClause_long _ _ _ _

/-- C7 counterexample: with impacts (-10, 0, -10) no strength is stated
and three concerns are emitted, yet the concern clause leads with
"Areas of concern include", not the "Primary concerns include" the
claim requires whenever no strength was stated. -/
theorem concern_clause_lead_in_counterexample :
    strengthsOf (-10) 0 (-10) = [] ∧
    concernsOf (-10) 0 (-10) =
      ["high debt burden", "limited market size", "negative market sentiment"] ∧
    concernClause (strengthsOf (-10) 0 (-10)) (concernsOf (-10) 0 (-10)) =
      some "Areas of concern include high debt burden, limited market size, and negative market sentiment." ∧
    strStartsWith
      "Areas of concern include high debt burden, limited market size, and negative market sentiment."
      "Primary concerns include " = false ∧
    generate_plain_language_summary 15
      { base_score := 50, debt_ratio_impact := -10, market_cap_impact := 0,
        news_sentiment_impact := -10 } "Example Co" =
      "Based on our comprehensive analysis, Example Co exhibits high credit risk. Areas of concern include high debt burden, limited market size, and negative market sentiment. This credit profile suggests significant risk that requires careful consideration." := by
  refine ⟨rfl, rfl, rfl, rfl, rfl⟩

/-- Witness for C7 on the three-concern no-strength explanation: the
clause exists and leads with "Areas of concern include". -/
theorem concern_clause_lead_in_witness :
    ∃ out, concernClause (strengthsOf (-10) 0 (-10)) (concernsOf (-10) 0 (-10)) = some out ∧
      strStartsWith out "Areas of concern include " = true :=
  (concern_clause_lead_in
    { base_score := 50, debt_ratio_impact := -10, market_cap_impact := 0,
      news_sentiment_impact := -10 }).2 (by decide)

end FinPulse
